/-
Verification of the az305 repository's slide-deck builder (build_pptx.py),
deck validator (validate_pptx.py), objective-sync script
(.github/scripts/sync_objectives.py) and the two diagram fetchers
(download_diagrams.py, scrape_azure_diagrams.py), as a shallow embedding
in Lean 4.

Strings are modelled as Lean `String`, with all character-level operations
(substring search, lowercasing, stripping) defined over `List Char` so that
every definition is executable by kernel reduction.  Python's `needle in
haystack` substring test, `str.lower()`, `str.strip()` and `str.split`
are modelled for the ASCII and Latin-1/BMP characters actually occurring in
this repository's data, on which the Python and Lean versions agree.
-/
import Mathlib

set_option maxRecDepth 100000
set_option maxHeartbeats 2000000

/-! ## Character / string utilities (Python string primitives) -/

/-- Python `haystack.__contains__(needle)` over explicit character lists:
`needle` occurs as a contiguous substring of `haystack`. -/
def strContainsCore (hay needle : List Char) : Bool :=
  (List.range (hay.length + 1)).any fun i => needle.isPrefixOf (hay.drop i)

/-- Python `needle in hay` on strings. -/
def strContains (hay needle : String) : Bool :=
  strContainsCore hay.data needle.data

/-- Python `str.lower()` (ASCII letters; all non-ASCII characters in this
repository's data are unaffected by `str.lower`). -/
def pyLower (s : String) : String :=
  ⟨s.data.map Char.toLower⟩

/-- Python `str.strip()` (leading/trailing whitespace removed; the data in
this repository only carries space/tab/newline whitespace). -/
def pyStrip (s : String) : String :=
  ⟨((s.data.dropWhile Char.isWhitespace).reverse.dropWhile Char.isWhitespace).reverse⟩

/-- `sep.join(parts)` from Python, over character lists. -/
def joinSepChars (sep : List Char) : List (List Char) → List Char
  | [] => []
  | [x] => x
  | x :: y :: xs => x ++ sep ++ joinSepChars sep (y :: xs)

/-- Python `"\n".join(texts)`. -/
def joinNL (texts : List String) : String :=
  ⟨joinSepChars ['\n'] (texts.map String.data)⟩

/-! ## Deck validator: validate_pptx.py

A slide's extracted content (`extract_slide_info`) is its list of non-empty
paragraph/table-row texts (`all_text`); `full_text` is their
newline-join.  The corpus handed to each check is the list of per-slide
`all_text` lists. -/

/-- The per-slide extracted text list, as produced by `extract_slide_info`. -/
abbrev SlideTexts := List String

/-- `full_text` of a slide: `"\n".join(texts)` (validate_pptx.py line 34). -/
def full_text (s : SlideTexts) : String := joinNL s

/-- `check_slide_count` (validate_pptx.py lines 39-43). -/
def check_slide_count (info : List SlideTexts) : String × String :=
  let count := info.length
  let status := if count = 97 then "PASS" else "FAIL"
  (status, "Slide count: " ++ toString count ++ " (expected 97)")

/-- The `expected_dividers` table of `check_segment_dividers`. -/
def expected_dividers : List (String × String) :=
  [("Identity, Governance", "25-30%"),
   ("Data Storage", "20-25%"),
   ("Business Continuity", "15-20%"),
   ("Compute", "~17%"),
   ("Networking", "~18%")]

/-- One divider (topic, weight) pair matches slide `s`:
`topic.lower() in s.full_text.lower() and weight in s.full_text`. -/
def dividerMatches (s : SlideTexts) (p : String × String) : Bool :=
  strContains (pyLower (full_text s)) (pyLower p.1) && strContains (full_text s) p.2

/-- `check_segment_dividers` (validate_pptx.py lines 46-72).  Slides are
enumerated from 1 exactly as `extract_slide_info` numbers them; `found`
records (topic, slide number) for the first matching slide of each pair. -/
def check_segment_dividers (info : List SlideTexts) :
    String × String × List (String × Nat) :=
  let found := expected_dividers.filterMap fun p =>
    ((info.enumFrom 1).find? fun s => dividerMatches s.2 p).map fun s => (p.1, s.1)
  let issues := (expected_dividers.filter fun p =>
      !(info.any fun s => dividerMatches s p)).map fun p =>
    "Missing divider for " ++ p.1 ++ " with weight " ++ p.2
  let status := if found.length = 5 then "PASS" else "FAIL"
  let detail := "Found " ++ toString found.length ++ "/5 segment dividers" ++
    (if issues.isEmpty then "" else " | Issues: " ++ String.intercalate "; " issues)
  (status, detail, found)

/-- The `key_matrices` keyword table of `check_decision_matrices`. -/
def key_matrices : List String :=
  ["authentication decision", "storage decision", "redundancy", "rto",
   "compute decision", "messaging", "load balancing", "migration",
   "firewall", "governance decision"]

/-- A keyword occurs in some slide: `matrix.lower() in s.full_text.lower()`. -/
def matrixFound (info : List SlideTexts) (m : String) : Bool :=
  info.any fun s => strContains (pyLower (full_text s)) (pyLower m)

/-- `check_decision_matrices` (validate_pptx.py lines 107-137). -/
def check_decision_matrices (info : List SlideTexts) : String × String :=
  let found := key_matrices.filter (matrixFound info)
  let missing := key_matrices.filter fun m => !(matrixFound info m)
  let status :=
    if found.length ≥ 8 then "PASS" else if found.length ≥ 6 then "WARN" else "FAIL"
  let detail := "Decision matrices found: " ++ toString found.length ++ "/" ++
    toString key_matrices.length ++
    (if missing.isEmpty then "" else " | Not found: " ++ String.intercalate ", " missing)
  (status, detail)

/-- `opening_keywords` of `check_opening_closing`. -/
def opening_keywords : List String :=
  ["az-305", "about", "course objectives", "exam overview",
   "agenda", "cross-cutting", "well-architected", "how to use"]

/-- `closing_keywords` of `check_opening_closing`. -/
def closing_keywords : List String :=
  ["recap", "exam day", "study resources", "next steps", "thank you"]

/-- `check_opening_closing` (validate_pptx.py lines 140-157).  Python's
`slides_info[:8]` is `take 8` and `slides_info[-5:]` is
`drop (length - 5)` (whole list when shorter than 5). -/
def check_opening_closing (info : List SlideTexts) :
    (String × String) × (String × String) :=
  let opening_slides := info.take 8
  let closing_slides := info.drop (info.length - 5)
  let opening_found := opening_keywords.countP fun kw =>
    opening_slides.any fun s => strContains (pyLower (full_text s)) (pyLower kw)
  let closing_found := closing_keywords.countP fun kw =>
    closing_slides.any fun s => strContains (pyLower (full_text s)) (pyLower kw)
  let o_status := if opening_found ≥ 7 then "PASS" else "WARN"
  let c_status := if closing_found ≥ 4 then "PASS" else "WARN"
  ((o_status, "Opening: " ++ toString opening_found ++ "/8 keywords matched"),
   (c_status, "Closing: " ++ toString closing_found ++ "/5 keywords matched"))

/-- The `weights` table of `check_exam_weights`. -/
def exam_weights_table : List (String × String) :=
  [("25-30%", "Identity/Governance"),
   ("20-25%", "Data Storage"),
   ("15-20%", "Business Continuity")]

/-- `check_exam_weights` (validate_pptx.py lines 191-201):
`all_text = " ".join(full_texts)`, weight found iff verbatim substring. -/
def check_exam_weights (info : List SlideTexts) : String × String :=
  let all_text := String.intercalate " " (info.map full_text)
  let found := exam_weights_table.filter fun w => strContains all_text w.1
  let status := if found.length = exam_weights_table.length then "PASS" else "WARN"
  (status, "Exam weights verified: " ++ toString found.length ++ "/" ++
    toString exam_weights_table.length)

/-- `check_tables_present` (validate_pptx.py lines 204-211): counts slides
with a table-row delimiter `" | "` in some extracted text. -/
def check_tables_present (info : List SlideTexts) : String × String :=
  let table_count := info.countP fun s => s.any fun t => strContains t " | "
  let status := if table_count ≥ 15 then "PASS" else "WARN"
  (status, "Slides with tables: " ++ toString table_count)

/-- The grade computation of `main` (validate_pptx.py lines 308-328), applied
to the list of collected check statuses. -/
def computeGrade (all_checks : List String) : String :=
  let warns := all_checks.count "WARN"
  let fails := all_checks.count "FAIL"
  if fails = 0 ∧ warns = 0 then "A"
  else if fails = 0 ∧ warns ≤ 2 then "A-"
  else if fails = 0 then "B+"
  else if fails ≤ 1 then "B"
  else if fails ≤ 2 then "C"
  else "D"

/-! ## Deck builder: build_pptx.py

The build script is a straight-line sequence of 97 slide-creation steps:
two inline blocks (the title slide and the closing "Thank You" slide) and
95 calls to the helpers `new_content_slide`, `new_divider_slide` and
`new_exam_tip_slide`.  Each step increments the global `slide_counter`,
appends one slide, and stamps the footer (segment label bottom-left,
`str(slide_counter)` bottom-right) via `add_footer`.  A slide is modelled
by its segment id, the stamped footer number and the list of texts placed
on it *by the creation step itself*; content added afterwards at top level
(bullet lists, tables, review questions) only adds further text to an
already-created slide and is not needed by any claim about slide identity,
count or ordering.  Divider slides receive no post-creation content, so
their text model is complete. -/

/-- The `SEGMENTS` footer-label table (build_pptx.py lines 33-41);
`SEGMENTS.get(segment_id, "")` defaults to the empty string. -/
def SEGMENTS : Nat → String
  | 0 => "Opening"
  | 1 => "Segment 1: Identity, Governance & Monitoring"
  | 2 => "Segment 2: Data Storage Solutions"
  | 3 => "Segment 3: Business Continuity & HA"
  | 4 => "Segment 4: Compute & Application Architecture"
  | 5 => "Segment 5: Networking & Migrations"
  | 6 => "Closing"
  | _ => ""

/-- One generated slide: segment tag, stamped footer number, extracted texts. -/
structure Slide where
  segment_id : Nat
  footer_num : Nat
  texts : List String

/-- `add_footer(slide, segment_id, slide_num)` (build_pptx.py lines 93-100):
appends the segment label and the slide number rendered with `str`. -/
def add_footer (texts : List String) (segment_id slide_num : Nat) : List String :=
  texts ++ [SEGMENTS segment_id, toString slide_num]

/-- The builder's global mutable state: `slide_counter` plus the
presentation's slide list (`prs.slides`). -/
structure BuildState where
  slide_counter : Nat
  slides : List Slide

/-- `new_content_slide(title, segment_id, subtitle)` (lines 119-126):
increment the counter, append a blank-layout slide carrying the header-bar
title (and subtitle when given), stamp the footer with the new counter. -/
def new_content_slide (st : BuildState) (title : String) (segment_id : Nat)
    (subtitle : Option String) : BuildState :=
  let c := st.slide_counter + 1
  let headerTexts := [title] ++ subtitle.toList
  ⟨c, st.slides ++ [⟨segment_id, c, add_footer headerTexts segment_id c⟩]⟩

/-- `new_divider_slide(title, badge_text, segment_id)` (lines 129-162). -/
def new_divider_slide (st : BuildState) (title badge_text : String)
    (segment_id : Nat) : BuildState :=
  let c := st.slide_counter + 1
  ⟨c, st.slides ++ [⟨segment_id, c, add_footer [title, badge_text] segment_id c⟩]⟩

/-- `new_exam_tip_slide(title, segment_id)` (lines 165-189): title plus the
literal subtitle "EXAM TIPS". -/
def new_exam_tip_slide (st : BuildState) (title : String)
    (segment_id : Nat) : BuildState :=
  let c := st.slide_counter + 1
  ⟨c, st.slides ++ [⟨segment_id, c, add_footer [title, "EXAM TIPS"] segment_id c⟩]⟩

/-- One top-level slide-creation step of the build script.  `rawSlide` is an
inline `slide_counter += 1; prs.slides.add_slide(...)` block carrying the
texts of its own textboxes. -/
inductive Step where
  | content (title : String) (segment_id : Nat) (subtitle : Option String)
  | divider (title badge_text : String) (segment_id : Nat)
  | examTip (title : String) (segment_id : Nat)
  | rawSlide (texts : List String) (segment_id : Nat)

/-- Execute one step against the build state. -/
def applyStep (st : BuildState) : Step → BuildState
  | .content title seg sub => new_content_slide st title seg sub
  | .divider title badge seg => new_divider_slide st title badge seg
  | .examTip title seg => new_exam_tip_slide st title seg
  | .rawSlide texts seg =>
    let c := st.slide_counter + 1
    ⟨c, st.slides ++ [⟨seg, c, add_footer texts seg c⟩]⟩

/-- Steps 1-15 of the build script. -/
def buildSteps0 : List Step :=
  [.rawSlide ["AZ-305: Designing Microsoft Azure\nInfrastructure Solutions",
    "Tim Warner  |  O\u0027Reilly Live Learning  |  January 2026",
    "Microsoft MVP  |  MCT  |  Azure Solutions Architect Expert"] 0,
  .content "About the Instructor" 0 none,
  .content "Course Objectives" 0 none,
  .content "Exam Overview" 0 (some "AZ-305 Key Facts"),
  .content "Agenda & Schedule" 0 none,
  .content "Cross-Cutting Themes" 0 (some "Three pillars that appear in EVERY segment"),
  .content "Azure Well-Architected Framework" 0 (some "5 Pillars"),
  .content "How to Use This Session" 0 none,
  .divider "Identity, Governance\n& Monitoring" "25-30% of Exam" 1,
  .content "Segment 1 Learning Objectives" 1 none,
  .content "Microsoft Entra ID Core Concepts" 1 none,
  .content "Authentication Decision Matrix" 1 none,
  .content "Hybrid Identity Options" 1 none,
  .content "Conditional Access Architecture" 1 (some "Policy = Assignments + Conditions + Controls"),
  .content "Managed Identity Deep Dive" 1 (some "Eliminate secrets from your code")]

/-- Steps 16-30 of the build script. -/
def buildSteps1 : List Step :=
  [.content "RBAC & Authorization" 1 none,
  .content "PIM & Identity Governance" 1 none,
  .content "Management Group Hierarchy" 1 (some "Cloud Adoption Framework Landing Zone"),
  .content "Azure Policy Deep Dive" 1 none,
  .content "Governance Decision Matrix" 1 none,
  .content "Azure Monitor Architecture" 1 none,
  .content "Application Insights & Observability" 1 none,
  .content "Microsoft Sentinel" 1 (some "Cloud-Native SIEM + SOAR"),
  .content "Key Vault Patterns" 1 none,
  .content "Segment 1 Demos" 1 none,
  .examTip "Segment 1 Exam Tips" 1,
  .content "Segment 1 Review Questions" 1 none,
  .divider "Data Storage Solutions" "20-25% of Exam" 2,
  .content "Segment 2 Learning Objectives" 2 none,
  .content "Storage Decision Tree" 2 none]

/-- Steps 31-45 of the build script. -/
def buildSteps2 : List Step :=
  [.content "Storage Redundancy Matrix" 2 none,
  .content "Blob Storage Tiers & Lifecycle" 2 none,
  .content "Azure Files & NetApp Files" 2 none,
  .content "Relational Database Decision Matrix" 2 none,
  .content "Azure SQL Architecture Patterns" 2 none,
  .content "Cosmos DB Design" 2 (some "Global Distribution & Multi-Model"),
  .content "Cosmos DB Consistency Spectrum" 2 none,
  .content "Data Platform Architecture" 2 (some "Medallion Pattern"),
  .content "Data Integration" 2 none,
  .content "Data Protection & Encryption" 2 none,
  .content "Private Endpoints for Data" 2 (some "Zero Trust Networking for Data Services"),
  .content "Data Residency & Microsoft Purview" 2 none,
  .content "Segment 2 Demos" 2 none,
  .examTip "Segment 2 Exam Tips" 2,
  .content "Segment 2 Review Questions" 2 none]

/-- Steps 46-60 of the build script. -/
def buildSteps3 : List Step :=
  [.divider "Business Continuity\n& High Availability" "15-20% of Exam" 3,
  .content "Segment 3 Learning Objectives" 3 none,
  .content "RTO vs RPO Fundamentals" 3 none,
  .content "RTO / RPO Decision Matrix" 3 none,
  .content "Availability Zones vs Availability Sets" 3 none,
  .content "SLA Calculation" 3 none,
  .content "Azure Backup Architecture" 3 none,
  .content "Azure Site Recovery (ASR)" 3 none,
  .content "SQL BCDR Options" 3 none,
  .content "Multi-Region Patterns" 3 none,
  .content "HA Decision Matrix by Service" 3 none,
  .content "DR Testing" 3 none,
  .content "Segment 3 Demos" 3 none,
  .examTip "Segment 3 Exam Tips" 3,
  .content "Segment 3 Review Questions" 3 none]

/-- Steps 61-75 of the build script. -/
def buildSteps4 : List Step :=
  [.divider "Compute & Application\nArchitecture" "~17% of Exam" 4,
  .content "Segment 4 Learning Objectives" 4 none,
  .content "Compute Decision Tree" 4 none,
  .content "VM Design Patterns" 4 none,
  .content "App Service Architecture" 4 none,
  .content "Container Strategy" 4 none,
  .content "AKS Deep Dive" 4 none,
  .content "Container Apps with Dapr" 4 none,
  .content "Serverless: Azure Functions" 4 none,
  .content "Messaging Service Selection" 4 none,
  .content "Application Architecture Patterns" 4 none,
  .content "API Management (APIM)" 4 none,
  .content "Caching Strategy" 4 none,
  .content "Segment 4 Demos" 4 none,
  .examTip "Segment 4 Exam Tips" 4]

/-- Steps 76-90 of the build script. -/
def buildSteps5 : List Step :=
  [.content "Segment 4 Review Questions" 4 none,
  .divider "Networking\n& Migrations" "~18% of Exam" 5,
  .content "Segment 5 Learning Objectives" 5 none,
  .content "VNet Architecture" 5 none,
  .content "Hub-Spoke Topology" 5 none,
  .content "Azure Virtual WAN" 5 none,
  .content "Hybrid Connectivity Decision" 5 none,
  .content "ExpressRoute Deep Dive" 5 none,
  .content "Network Security Layers" 5 (some "Defense in Depth"),
  .content "Firewall vs NSG vs NVA" 5 none,
  .content "Private Link Architecture" 5 none,
  .content "Load Balancing Decision" 5 none,
  .content "Migration Strategies (5 Rs)" 5 none,
  .content "Migration Tools" 5 none,
  .content "Segment 5 Demos" 5 none]

/-- Steps 91-97 of the build script. -/
def buildSteps6 : List Step :=
  [.examTip "Segment 5 Exam Tips" 5,
  .content "Segment 5 Review Questions" 5 none,
  .content "Course Recap" 6 (some "5 Segments, 3 Cross-Cutting Themes"),
  .content "Exam Day Strategy" 6 none,
  .content "Study Resources" 6 none,
  .content "Three Prioritized Next Steps" 6 none,
  .rawSlide ["Thank You!",
    "Questions? Let\u0027s discuss!",
    "Tim Warner",
    "timothywarner316@gmail.com  |  @TechTrainerTim\nO\u0027Reilly Live Learning\nMicrosoft MVP  |  MCT  |  Azure Solutions Architect Expert"] 6]

/-- The 97 slide-creation steps of build_pptx.py, in script order. -/
def buildSteps : List Step :=
  buildSteps0 ++ buildSteps1 ++ buildSteps2 ++ buildSteps3 ++ buildSteps4 ++ buildSteps5 ++ buildSteps6

/-- Run a list of steps from the initial state (`slide_counter = 0`, empty
presentation). -/
def runSteps (steps : List Step) : BuildState :=
  steps.foldl applyStep ⟨0, []⟩

/-- The full deck produced by one run of the build script (the state at the
point of `prs.save(output_path)`). -/
def runBuild : BuildState := runSteps buildSteps

/-! ## Objective sync: .github/scripts/sync_objectives.py

`parse_objectives` walks the heading/list elements following the "skills
measured" heading; the element stream handed to it is modelled as the list
of `h3`/`ul` elements (in document order) that `find_all_next(['h3','ul'])`
yields, an `h3` carrying its text and a `ul` carrying the texts of its `li`
descendants.  `datetime.now().strftime('%B %d, %Y')` is modelled by a
`now` parameter holding the formatted current date of the invocation.

The literal strings below reproduce the source file byte-for-byte: the
emoji literals and the dash inside the weight regular expression are stored
in the repository in a cp1252-mojibake form (e.g. the value mapped to
"Identity" is the three characters U+00F0 U+0178 U+201D, and the regex
separator is U+00E2 U+20AC U+201C rather than an en dash). -/

/-- One element of the `find_all_next(['h3', 'ul'])` stream. -/
inductive Elem where
  | h3 (text : String)
  | ul (items : List String)

/-- An objectives section: `{'title': ..., 'items': [...]}`. -/
structure ObjSection where
  title : String
  items : List String

/-- The parsed objectives: `{'last_updated': ..., 'sections': [...]}`. -/
structure Objectives where
  last_updated : String
  sections : List ObjSection

/-- The loop of `parse_objectives` (sync_objectives.py lines 29-43), with the
mutable `current_section` made an explicit `Option` state.  An `h3` flushes
the current section and opens a new one with the stripped heading text; a
`ul` extends the current section (when one is open) with the stripped `li`
texts; elements before the first `h3` find `current_section` still unset and
are skipped.  The trailing flush is the `if current_section:` after the loop. -/
def parseLoop : Option ObjSection → List Elem → List ObjSection
  | cur, [] => cur.toList
  | cur, .h3 t :: rest => cur.toList ++ parseLoop (some ⟨pyStrip t, []⟩) rest
  | some c, .ul its :: rest =>
    parseLoop (some ⟨c.title, c.items ++ its.map pyStrip⟩) rest
  | none, .ul _ :: rest => parseLoop none rest

/-- `parse_objectives(section)` (sync_objectives.py lines 22-45). -/
def parse_objectives (now : String) (elems : List Elem) : Objectives :=
  ⟨now, parseLoop none elems⟩

/-- `True` for every element other than an `h3` heading. -/
def notH3 : Elem → Bool
  | .h3 _ => false
  | .ul _ => true

/-- The `li` texts of a `ul` element (empty for a heading). -/
def ulItems : Elem → List String
  | .h3 _ => []
  | .ul its => its

/-- Modelled from the claim: the grouping `parse_objectives` is specified to
produce — list elements before the first `h3` are discarded, and each `h3`
is grouped with the stripped `li` texts of the `ul` elements that follow it
up to the next `h3`, sections and items in document order. -/
def specGrouping : List Elem → List ObjSection
  | [] => []
  | .ul _ :: rest => specGrouping rest
  | .h3 t :: rest =>
    ⟨pyStrip t, (((rest.takeWhile notH3).map ulItems).flatten).map pyStrip⟩ ::
      specGrouping (rest.dropWhile notH3)
termination_by l => l.length
decreasing_by
  · simp
  · have h := (List.dropWhile_sublist notH3 (l := rest)).length_le
    simp only [List.length_cons]
    omega

/-- The `emoji_map` of `generate_markdown` (sync_objectives.py lines 49-58),
with the corrupted literal values exactly as stored in the source. -/
def emoji_map : List (String × String) :=
  [("Identity", "ðŸ”"),
   ("Data", "ðŸ’¾"),
   ("Business", "ðŸ”„"),
   ("Infrastructure", "ðŸ—ï¸"),
   ("Compute", "ðŸ–¥ï¸"),
   ("Application", "ðŸ›ï¸"),
   ("Migration", "ðŸš€"),
   ("Network", "ðŸŒ")]

/-- The fallback label of `next((v for k, v in emoji_map.items() if k in
title), ...)` as stored in the source. -/
def default_emoji : String := "ðŸ“Œ"

/-- `section['title'].split('(')[0]`: the prefix before the first `(`. -/
def beforeParen (s : String) : String :=
  ⟨s.data.takeWhile fun c => c != '('⟩

/-- The three characters standing between `\d+` and `\d+%` in the source's
weight regular expression (the cp1252-mojibake of an en dash). -/
def weightSep : List Char := ['â', '€', '“']

/-- Try to match the regex `\((\d+â€“\d+%)\)` at the head of `cs` (the dash
written here by codepoint); on success return capture group 1. -/
def weightAt (cs : List Char) : Option String :=
  match cs with
  | '(' :: rest =>
    let d1 := rest.takeWhile Char.isDigit
    let r1 := rest.dropWhile Char.isDigit
    if d1.isEmpty then none else
    match r1 with
    | 'â' :: '€' :: '“' :: r2 =>
      let d2 := r2.takeWhile Char.isDigit
      let r3 := r2.dropWhile Char.isDigit
      if d2.isEmpty then none else
      match r3 with
      | '%' :: ')' :: _ => some ⟨d1 ++ weightSep ++ d2 ++ ['%']⟩
      | _ => none
    | _ => none
  | _ => none

/-- `re.search` with that pattern: leftmost match, else `None`. -/
def searchWeight : List Char → Option String
  | [] => none
  | c :: rest =>
    match weightAt (c :: rest) with
    | some g => some g
    | none => searchWeight rest

/-- The per-section title/weight/emoji computation shared by both loops of
`generate_markdown` (lines 67-71 and 77-81). -/
def sectionFields (sec : ObjSection) : String × String × String :=
  let title := pyStrip (beforeParen sec.title)
  let weight := (searchWeight sec.title.data).getD ""
  let emoji := ((emoji_map.find? fun kv => strContains title kv.1).map
    fun kv => kv.2).getD default_emoji
  (title, weight, emoji)

/-- `generate_markdown(objectives)` (sync_objectives.py lines 47-88), the
header literals reproduced byte-for-byte from the source.  In the summary
loop the computed emoji is unused, exactly as in the source. -/
def generate_markdown (objectives : Objectives) : String :=
  let md0 : List String :=
    ["# ðŸ† AZ-305: Azure Solutions Architect Expert\n",
     "> ðŸ“… " ++ objectives.last_updated ++ "\n",
     "## ðŸŽ¯ Exam Sections\n"]
  let summary := objectives.sections.map fun sec =>
    let f := sectionFields sec
    "- " ++ f.1 ++ " (" ++ f.2.1 ++ ")"
  let detail := ((objectives.sections.enumFrom 1).map fun p =>
    let f := sectionFields p.2
    ["### " ++ toString p.1 ++ ". " ++ f.2.2 ++ " " ++ f.1 ++
      " (" ++ f.2.1 ++ ")\n"] ++
    (p.2.items.map fun item => "- " ++ item) ++ [""]).flatten
  joinNL (md0 ++ summary ++ ["\n## ðŸ“š Technical Requirements\n"] ++ detail)

/-- The page model seen by `fetch_exam_objectives`: the `.string` contents of
the page's `h2` elements in document order (`none` for an `h2` without a
single string child, which `BeautifulSoup.find(string=...)` never matches),
and the `h3`/`ul` stream following the skills-measured heading. -/
structure Page where
  h2_strings : List (Option String)
  skills_tail : List Elem

/-- The `string=re.compile(r'Skills measured', re.I)` filter: a
case-insensitive search for "Skills measured" anywhere in the string. -/
def skillsPred (os : Option String) : Bool :=
  match os with
  | some s => strContains (pyLower s) "skills measured"
  | none => false

/-- `fetch_exam_objectives(url)` (sync_objectives.py lines 9-20).  The HTTP
fetch is an oracle value: `Except.error` when `requests.get` or
`raise_for_status` raises, `Except.ok` carrying the parsed page otherwise.
A missing skills-measured heading raises `ValueError`. -/
def fetch_exam_objectives (resp : Except String Page) (now : String) :
    Except String Objectives :=
  match resp with
  | .error e => .error e
  | .ok page =>
    match page.h2_strings.find? skillsPred with
    | none => .error "Could not find skills measured section"
    | some _ => .ok (parse_objectives now page.skills_tail)

/-- `update_objectives_file()` (sync_objectives.py lines 90-100).  `exam_url`
is `os.getenv('EXAM_URL')`; `http` is the network oracle.  The returned list
is the script's file writes (path, content): the single write of the
generated markdown happens only after fetch and generation succeed, so an
error propagates with no file writes. -/
def update_objectives_file (exam_url : Option String)
    (http : String → Except String Page) (now : String) :
    Except String (List (String × String)) :=
  match exam_url with
  | none => .error "EXAM_URL environment variable not set"
  | some url =>
    match fetch_exam_objectives (http url) now with
    | .error e => .error e
    | .ok objs => .ok [("az305-exam-metadata/az305-OD.md", generate_markdown objs)]

/-! ## Diagram fetchers: download_diagrams.py and scrape_azure_diagrams.py

HTTP is an oracle: `Except.error` models an exception raised by
`requests.get`/`raise_for_status` (e.g. an HTTP 404), `Except.ok` a
successful response with its `content-type` header and body bytes.
`urljoin` is passed in as an opaque function.  Each `download_image` also
reports the file writes it performs, so "no file is counted/written for a
failed item" is visible in the model. -/

/-- A successful HTTP response: the `content-type` header (defaulted to `""`
by `headers.get`) and the body. -/
structure HttpResponse where
  content_type : String
  body : String

/-- Python `s.endswith(suffix)`. -/
def pyEndsWith (s suffix : String) : Bool :=
  suffix.data.isSuffixOf s.data

/-- Python `s.startswith(pre)`. -/
def pyStartsWith (s pre : String) : Bool :=
  pre.data.isPrefixOf s.data

/-- The extension inference of download_diagrams.py (lines 44-52). -/
def ext_for (content_type url : String) : String :=
  if strContains content_type "svg" || pyEndsWith url ".svg" then ".svg"
  else if strContains content_type "png" || pyEndsWith url ".png" then ".png"
  else if strContains content_type "jpg" || strContains content_type "jpeg" ||
    pyEndsWith url ".jpg" || pyEndsWith url ".jpeg" then ".jpg"
  else ".png"

/-- `download_image(url, filename)` of download_diagrams.py (lines 37-63):
any exception from the request is caught inside the function, an error is
printed and `False` returned; on success the body is written to
`images/filename+ext` and `True` returned. -/
def download_image_dd (resp : Except String HttpResponse) (url filename : String) :
    Bool × List (String × String) :=
  match resp with
  | .error _ => (false, [])
  | .ok r => (true, [("images/" ++ filename ++ ext_for r.content_type url, r.body)])

/-- `download_image(url, filename)` of scrape_azure_diagrams.py
(lines 41-54): same catch-log-return-False policy, writing
`response.content` to `images/filename` on success. -/
def download_image_sad (resp : Except String HttpResponse) (filename : String) :
    Bool × List (String × String) :=
  match resp with
  | .error _ => (false, [])
  | .ok r => (true, [("images/" ++ filename, r.body)])

/-- `clean_filename(url)` (download_diagrams.py lines 29-35). -/
def clean_filename (url : String) : String :=
  let stripped := (url.data.reverse.dropWhile fun c => c == '/').reverse
  let last := (stripped.reverse.takeWhile fun c => c != '/').reverse
  let repl := last.map fun c => if c == '-' then '_' else c
  ⟨repl.filter fun c => c.isAlphanum || c == '_' || c == '-'⟩

/-- The keyword filter of download_diagrams.py line 95. -/
def arch_keywords : List String := ["architecture", "diagram", "reference"]

/-- Relative-to-absolute URL conversion (download_diagrams.py lines 91-92);
`urljoin` is the library function, taken as a parameter. -/
def absolutize (urljoin : String → String → String) (page_url src : String) :
    String :=
  if pyStartsWith src "http://" || pyStartsWith src "https://" then src
  else urljoin page_url src

/-- Whether an `img` element's `src` is attempted at all by the loop of
`process_page`: non-empty and architecture-related after conversion. -/
def srcAttempted (urljoin : String → String → String) (page_url src : String) :
    Bool :=
  if src = "" then false
  else arch_keywords.any fun k =>
    strContains (pyLower (absolutize urljoin page_url src)) k

/-- The image loop of `process_page` (download_diagrams.py lines 85-100):
walks the page's `img` `src` attributes, skipping empty ones, downloading
architecture-related ones, and incrementing `image_count` only when
`download_image` returns `True`. -/
def processLoop (page_name page_url : String)
    (fetchImg : String → Except String HttpResponse)
    (urljoin : String → String → String) :
    List String → Nat → Nat
  | [], count => count
  | src :: rest, count =>
    if src = "" then processLoop page_name page_url fetchImg urljoin rest count
    else
      let src2 := absolutize urljoin page_url src
      if arch_keywords.any (fun k => strContains (pyLower src2) k) then
        let filename :=
          if count > 0 then page_name ++ "_" ++ toString count else page_name
        if (download_image_dd (fetchImg src2) src2 filename).1 then
          processLoop page_name page_url fetchImg urljoin rest (count + 1)
        else
          processLoop page_name page_url fetchImg urljoin rest count
      else processLoop page_name page_url fetchImg urljoin rest count

/-- `process_page(url)` (download_diagrams.py lines 65-105): a failed page
fetch is caught and yields 0; otherwise the image loop runs over the page's
`img` `src` attributes starting with `image_count = 0`. -/
def process_page (page_url : String)
    (pageResp : Except String (List String))
    (fetchImg : String → Except String HttpResponse)
    (urljoin : String → String → String) : Nat :=
  match pageResp with
  | .error _ => 0
  | .ok srcs => processLoop (clean_filename page_url) page_url fetchImg urljoin srcs 0

/-- The fixed `pages` list of download_diagrams.py (lines 13-27). -/
def pages : List String :=
  ["https://learn.microsoft.com/en-us/azure/architecture/guide/",
   "https://learn.microsoft.com/en-us/azure/architecture/guide/architecture-styles/",
   "https://learn.microsoft.com/en-us/azure/architecture/guide/technology-choices/",
   "https://learn.microsoft.com/en-us/azure/architecture/patterns/",
   "https://learn.microsoft.com/en-us/azure/architecture/framework/",
   "https://learn.microsoft.com/en-us/azure/architecture/reference-architectures/",
   "https://learn.microsoft.com/en-us/azure/architecture/example-scenario/",
   "https://learn.microsoft.com/en-us/azure/architecture/browse/",
   "https://learn.microsoft.com/en-us/azure/architecture/guide/security/security-start-here",
   "https://learn.microsoft.com/en-us/azure/architecture/framework/security/security-principles",
   "https://learn.microsoft.com/en-us/azure/architecture/framework/resiliency/backup-and-recovery",
   "https://learn.microsoft.com/en-us/azure/architecture/framework/scalability/performance-efficiency",
   "https://learn.microsoft.com/en-us/azure/architecture/guide/technology-choices/compute-decision-tree"]

/-- The fixed `ARCHITECTURE_IMAGES` (url, filename) list of
scrape_azure_diagrams.py (lines 6-34). -/
def ARCHITECTURE_IMAGES : List (String × String) :=
  [("https://learn.microsoft.com/en-us/azure/architecture/guide/architecture-styles/images/microservices-logical.png",
    "microservices-architecture.png"),
   ("https://learn.microsoft.com/en-us/azure/architecture/reference-architectures/containers/aks/images/aks-baseline-architecture.svg",
    "aks-baseline-architecture.png"),
   ("https://learn.microsoft.com/en-us/azure/architecture/reference-architectures/hybrid-networking/images/hub-spoke.png",
    "hub-spoke-architecture.png"),
   ("https://learn.microsoft.com/en-us/azure/architecture/reference-architectures/app-service-web-app/images/scalable-web-app.png",
    "scalable-web-app-architecture.png"),
   ("https://learn.microsoft.com/en-us/azure/virtual-network/media/service-endpoints-overview.png",
    "service-endpoints.png"),
   ("https://learn.microsoft.com/en-us/azure/private-link/media/private-endpoint-basics.png",
    "private-endpoint-basics.png"),
   ("https://learn.microsoft.com/en-us/azure/private-link/media/private-link-service-overview.png",
    "private-link-service.png"),
   ("https://learn.microsoft.com/en-us/azure/dns/media/private-dns-portal.png",
    "private-dns-portal.png"),
   ("https://learn.microsoft.com/en-us/azure/virtual-network/media/routing-overview.png",
    "vnet-routing-overview.png"),
   ("https://learn.microsoft.com/en-us/azure/dns/media/dns-overview.png",
    "azure-dns-overview.png"),
   ("https://learn.microsoft.com/en-us/azure/dns/media/private-resolver-overview.png",
    "private-resolver-overview.png"),
   ("https://learn.microsoft.com/en-us/azure/dns/media/custom-domain-name.png",
    "custom-domain-dns.png"),
   ("https://learn.microsoft.com/en-us/azure/active-directory/conditional-access/media/overview/conditional-access-overview.png",
    "conditional-access-overview.png"),
   ("https://learn.microsoft.com/en-us/azure/active-directory/conditional-access/media/what-if-tool/what-if-tool.png",
    "conditional-access-what-if.png"),
   ("https://learn.microsoft.com/en-us/azure/active-directory/conditional-access/media/location-condition.png",
    "conditional-access-location.png"),
   ("https://learn.microsoft.com/en-us/azure/architecture/reference-architectures/containers/aks/images/secure-baseline-architecture.svg",
    "aks-secure-baseline.png"),
   ("https://learn.microsoft.com/en-us/azure/architecture/solution-ideas/media/devsecops-in-azure.png",
    "aks-devsecops.png"),
   ("https://learn.microsoft.com/en-us/azure/container-registry/media/container-registry-service-tiers.png",
    "acr-service-tiers.png")]

/-- `main()` of download_diagrams.py (lines 107-116): `total_images` sums the
per-page counts over the fixed page list. -/
def scrape_main (pageOracle : String → Except String (List String))
    (fetchImg : String → Except String HttpResponse)
    (urljoin : String → String → String) : Nat :=
  pages.foldl (fun total url => total + process_page url (pageOracle url) fetchImg urljoin) 0

/-- `download_architecture_diagrams()` of scrape_azure_diagrams.py
(lines 56-61): every (url, filename) pair is attempted in order, regardless
of earlier failures; the result records each item's success flag. -/
def download_architecture_diagrams
    (fetchImg : String → Except String HttpResponse) : List Bool :=
  ARCHITECTURE_IMAGES.map fun p => (download_image_sad (fetchImg p.1) p.2).1

/-- Whether the HTTP oracle succeeds for a URL (the success flag that
`download_image` turns into its return value). -/
def fetchOk (fi : String → Except String HttpResponse) (u : String) : Bool :=
  match fi u with
  | .ok _ => true
  | .error _ => false

/-! ## Helper lemmas -/

/-- The length of a `filterMap` counts the elements mapped to `some`. -/
theorem length_filterMap_eq_countP (f : α → Option β) (l : List α) :
    (l.filterMap f).length = l.countP fun a => (f a).isSome := by
  induction l with
  | nil => rfl
  | cons a l ih =>
    cases h : f a with
    | none => rw [List.filterMap_cons_none h, List.countP_cons, ih, h]; rfl
    | some b =>
      rw [List.filterMap_cons_some h, List.countP_cons, List.length_cons, ih, h]; rfl

/-- Searching an enumerated list for a predicate on the payload succeeds
exactly when some element satisfies the predicate. -/
theorem enumFrom_find_isSome (q : SlideTexts → Bool) (info : List SlideTexts) :
    ∀ n, ((info.enumFrom n).find? fun s => q s.2).isSome = info.any q := by
  induction info with
  | nil => intro n; rfl
  | cons a l ih =>
    intro n
    rw [List.enumFrom_cons, List.any_cons]
    cases h : q a with
    | true => simp [List.find?_cons, h]
    | false => simp [List.find?_cons, h, ih (n + 1)]

/-- `countP` respects pointwise-equal predicates. -/
theorem countP_congr_fun {p q : α → Bool} (h : ∀ a, p a = q a) (l : List α) :
    l.countP p = l.countP q := by
  induction l with
  | nil => rfl
  | cons a l ih => rw [List.countP_cons, List.countP_cons, h a, ih]

/-! ## C1 -/

/-- C1: one full run of the deck builder appends exactly 97 slides (the
state at `prs.save`), and the validator's `check_slide_count` returns
"PASS" exactly on an extracted slide list of length 97 and "FAIL" on every
other length. -/
theorem build_appends_97_and_check_slide_count :
    runBuild.slides.length = 97 ∧ runBuild.slide_counter = 97 ∧
    ∀ info : List SlideTexts,
      (check_slide_count info).1 = if info.length = 97 then "PASS" else "FAIL" := by
  refine ⟨by decide, by decide, fun info => rfl⟩

/-! ## C2 -/

/-- C2: for every list of collected check statuses, the overall grade is
"A" exactly when there is no FAIL and no WARN, "A-" exactly when there is
no FAIL and between one and two WARNs, and never "A" in the presence of a
FAIL. -/
theorem grade_decision_table (checks : List String) :
    (computeGrade checks = "A" ↔
      checks.count "FAIL" = 0 ∧ checks.count "WARN" = 0) ∧
    (computeGrade checks = "A-" ↔
      checks.count "FAIL" = 0 ∧ 1 ≤ checks.count "WARN" ∧ checks.count "WARN" ≤ 2) ∧
    (0 < checks.count "FAIL" → computeGrade checks ≠ "A") := by
  simp only [computeGrade]
  split_ifs with h1 h2 h3 h4 h5 <;>
    refine ⟨⟨fun hg => ?_, fun hc => ?_⟩, ⟨fun hg => ?_, fun hc => ?_⟩, fun hf hg => ?_⟩ <;>
    first
      | rfl
      | omega
      | (exact absurd hg (by decide))

/-- Witness for C2 at concrete status lists. -/
theorem grade_decision_table_witness :
    computeGrade ["PASS", "WARN"] = "A-" ∧ computeGrade ["FAIL"] ≠ "A" := by
  refine ⟨(grade_decision_table ["PASS", "WARN"]).2.1.mpr (by decide),
    (grade_decision_table ["FAIL"]).2.2 (by decide)⟩

/-! ## C3 -/

/-- C3: `check_segment_dividers` passes exactly when every one of its five
(topic, weight) pairs is matched by some slide (topic case-insensitively,
weight verbatim); the generated deck passes the check, and each of its five
divider slides carries its full badge text ("25-30% of Exam" etc.)
verbatim together with a topic-matching title. -/
theorem segment_dividers_pass_iff_and_deck :
    (∀ info : List SlideTexts,
      ((check_segment_dividers info).1 = "PASS" ↔
        ∀ p ∈ expected_dividers, info.any (fun s => dividerMatches s p) = true)) ∧
    (check_segment_dividers (runBuild.slides.map Slide.texts)).1 = "PASS" ∧
    ((expected_dividers.zip
        ["25-30% of Exam", "20-25% of Exam", "15-20% of Exam",
         "~17% of Exam", "~18% of Exam"]).all fun q =>
      runBuild.slides.any fun sl =>
        sl.texts.contains q.2 && dividerMatches sl.texts q.1) = true := by
  have hiff : ∀ info : List SlideTexts,
      ((check_segment_dividers info).1 = "PASS" ↔
        ∀ p ∈ expected_dividers, info.any (fun s => dividerMatches s p) = true) := by
    intro info
    have hlen : (expected_dividers.filterMap fun p =>
        ((info.enumFrom 1).find? fun s => dividerMatches s.2 p).map
          fun s => (p.1, s.1)).length
        = expected_dividers.countP fun p => info.any fun s => dividerMatches s p := by
      rw [length_filterMap_eq_countP]
      refine countP_congr_fun (fun p => ?_) _
      rw [Option.isSome_map']
      exact enumFrom_find_isSome (fun s => dividerMatches s p) info 1
    show (if _ then "PASS" else "FAIL") = "PASS" ↔ _
    rw [hlen]
    constructor
    · intro h
      split_ifs at h with hc
      · have h5 : (expected_dividers.countP fun p =>
            info.any fun s => dividerMatches s p) = expected_dividers.length := hc
        exact List.countP_eq_length.mp h5
      · exact absurd h (by decide)
    · intro h
      have h5 : (expected_dividers.countP fun p =>
          info.any fun s => dividerMatches s p) = 5 := List.countP_eq_length.mpr h
      rw [if_pos h5]
  exact ⟨hiff, by decide, by decide⟩

/-- Witness for C3: the Identity divider pair is matched inside the built
deck, obtained by instantiating the pass-iff direction on the deck. -/
theorem segment_dividers_witness :
    (runBuild.slides.map Slide.texts).any
      (fun s => dividerMatches s ("Identity, Governance", "25-30%")) = true := by
  have h := (segment_dividers_pass_iff_and_deck.1 (runBuild.slides.map Slide.texts)).mp
    segment_dividers_pass_iff_and_deck.2.1
  exact h ("Identity, Governance", "25-30%") (by decide)

/-! ## C4 -/

/-- C4: `check_decision_matrices` returns "PASS" exactly when at least 8 of
its 10 fixed keywords occur in some slide (case-insensitively), "WARN"
exactly when at least 6 but fewer than 8 occur, and "FAIL" otherwise. -/
theorem decision_matrices_thresholds (info : List SlideTexts) :
    ((check_decision_matrices info).1 = "PASS" ↔
      8 ≤ (key_matrices.filter (matrixFound info)).length) ∧
    ((check_decision_matrices info).1 = "WARN" ↔
      6 ≤ (key_matrices.filter (matrixFound info)).length ∧
        (key_matrices.filter (matrixFound info)).length < 8) ∧
    ((check_decision_matrices info).1 = "FAIL" ↔
      (key_matrices.filter (matrixFound info)).length < 6) := by
  have hs : (check_decision_matrices info).1 =
      (if (key_matrices.filter (matrixFound info)).length ≥ 8 then "PASS"
       else if (key_matrices.filter (matrixFound info)).length ≥ 6 then "WARN"
       else "FAIL") := rfl
  rw [hs]
  split_ifs with h1 h2 <;>
    refine ⟨⟨fun hg => ?_, fun hc => ?_⟩, ⟨fun hg => ?_, fun hc => ?_⟩,
      ⟨fun hg => ?_, fun hc => ?_⟩⟩ <;>
    first
      | rfl
      | omega
      | (exact absurd hg (by decide))

/-! ## C10 -/

/-- C10: `check_opening_closing`, `check_exam_weights` and
`check_tables_present` only ever return "PASS" or "WARN", never "FAIL";
consequently, whenever the collected statuses contain no FAIL at all, the
overall grade is at least "B+" (i.e. "A", "A-" or "B+"). -/
theorem soft_checks_never_fail (info : List SlideTexts) (checks : List String)
    (hnf : checks.count "FAIL" = 0) :
    ((check_opening_closing info).1.1 = "PASS" ∨
      (check_opening_closing info).1.1 = "WARN") ∧
    ((check_opening_closing info).2.1 = "PASS" ∨
      (check_opening_closing info).2.1 = "WARN") ∧
    ((check_exam_weights info).1 = "PASS" ∨ (check_exam_weights info).1 = "WARN") ∧
    ((check_tables_present info).1 = "PASS" ∨ (check_tables_present info).1 = "WARN") ∧
    (computeGrade checks = "A" ∨ computeGrade checks = "A-" ∨
      computeGrade checks = "B+") := by
  have h1 : (check_opening_closing info).1.1 =
      (if (opening_keywords.countP fun kw => (info.take 8).any fun s =>
          strContains (pyLower (full_text s)) (pyLower kw)) ≥ 7
       then "PASS" else "WARN") := rfl
  have h2 : (check_opening_closing info).2.1 =
      (if (closing_keywords.countP fun kw =>
          (info.drop (info.length - 5)).any fun s =>
          strContains (pyLower (full_text s)) (pyLower kw)) ≥ 4
       then "PASS" else "WARN") := rfl
  have h3 : (check_exam_weights info).1 =
      (if ((exam_weights_table.filter fun w =>
            strContains (String.intercalate " " (info.map full_text)) w.1).length
          = exam_weights_table.length)
       then "PASS" else "WARN") := rfl
  have h4 : (check_tables_present info).1 =
      (if (info.countP fun s => s.any fun t => strContains t " | ") ≥ 15
       then "PASS" else "WARN") := rfl
  refine ⟨?_, ?_, ?_, ?_, ?_⟩
  · rw [h1]; split_ifs <;> first | exact Or.inl rfl | exact Or.inr rfl
  · rw [h2]; split_ifs <;> first | exact Or.inl rfl | exact Or.inr rfl
  · rw [h3]; split_ifs <;> first | exact Or.inl rfl | exact Or.inr rfl
  · rw [h4]; split_ifs <;> first | exact Or.inl rfl | exact Or.inr rfl
  · simp only [computeGrade]
    split_ifs with g1 g2 _g3 _g4 _g5 <;>
      first
        | exact Or.inl rfl
        | exact Or.inr (Or.inl rfl)
        | exact Or.inr (Or.inr rfl)

/-- Witness for C10 at a concrete corpus and status list. -/
theorem soft_checks_never_fail_witness :
    ((check_opening_closing []).1.1 = "PASS" ∨
      (check_opening_closing []).1.1 = "WARN") ∧
    (computeGrade ["WARN", "WARN", "WARN"] = "A" ∨
      computeGrade ["WARN", "WARN", "WARN"] = "A-" ∨
      computeGrade ["WARN", "WARN", "WARN"] = "B+") := by
  have h := soft_checks_never_fail [] ["WARN", "WARN", "WARN"] (by decide)
  exact ⟨h.1, h.2.2.2.2⟩

/-! ## C6 -/

/-- Running the `parse_objectives` loop with an open section accumulates the
stripped items of the `ul` elements up to the next `h3` into that section
and then proceeds as the specified grouping. -/
theorem parseLoop_some (elems : List Elem) :
    ∀ (t : String) (its : List String),
      parseLoop (some ⟨t, its⟩) elems =
        ⟨t, its ++ (((elems.takeWhile notH3).map ulItems).flatten).map pyStrip⟩ ::
          specGrouping (elems.dropWhile notH3) := by
  induction elems with
  | nil => intro t its; simp [parseLoop, specGrouping]
  | cons e rest ih =>
    intro t its
    cases e with
    | h3 u =>
      simp only [parseLoop, Option.toList_some, ih (pyStrip u) [], List.takeWhile_cons,
        List.dropWhile_cons, notH3, Bool.false_eq_true, if_false, reduceIte,
        List.map_nil, List.flatten_nil, List.map, List.append_nil, List.nil_append,
        List.cons_append, specGrouping]
    | ul ls =>
      simp only [parseLoop, ih t (its ++ ls.map pyStrip), List.takeWhile_cons,
        List.dropWhile_cons, notH3, reduceIte, List.map_cons, List.flatten_cons,
        List.map_append, List.append_assoc, ulItems]

/-- Starting the loop with no open section realises the specified grouping. -/
theorem parseLoop_none (elems : List Elem) :
    parseLoop none elems = specGrouping elems := by
  induction elems with
  | nil => simp [parseLoop, specGrouping]
  | cons e rest ih =>
    cases e with
    | h3 u =>
      simp only [parseLoop, Option.toList_none, List.nil_append,
        parseLoop_some rest (pyStrip u) [], List.nil_append, specGrouping]
    | ul ls => simpa [parseLoop, specGrouping] using ih

/-- C6: `parse_objectives` groups each `h3` after the skills-measured heading
with exactly the stripped texts of the `li` items of the `ul` elements that
follow it up to the next `h3` (sections and items in document order; list
elements before the first `h3` discarded), and the result's `last_updated`
is the invocation-time date, independent of the page content. -/
theorem parse_objectives_grouping (now : String) (elems : List Elem) :
    (parse_objectives now elems).sections = specGrouping elems ∧
    (parse_objectives now elems).last_updated = now :=
  ⟨parseLoop_none elems, rfl⟩

/-! ## C7 -/

/-- C7: given a successfully fetched page, `fetch_exam_objectives` raises
exactly when no `h2` string matches the case-insensitive "Skills measured"
pattern; `update_objectives_file` raises immediately when `EXAM_URL` is
unset; and in both failure cases the run produces no file write (the write
list exists only in the `Except.ok` result). -/
theorem objectives_failfast :
    (∀ (page : Page) (now : String),
      ((∃ e, fetch_exam_objectives (.ok page) now = .error e) ↔
        ∀ os ∈ page.h2_strings, skillsPred os = false)) ∧
    (∀ (http : String → Except String Page) (now : String),
      update_objectives_file none http now =
        .error "EXAM_URL environment variable not set") ∧
    (∀ (url : String) (page : Page) (now : String),
      page.h2_strings.find? skillsPred = none →
      update_objectives_file (some url) (fun _ => .ok page) now =
        .error "Could not find skills measured section") := by
  refine ⟨?_, fun http now => rfl, ?_⟩
  · intro page now
    cases h : page.h2_strings.find? skillsPred with
    | none =>
      constructor
      · intro _ os hos
        have := List.find?_eq_none.mp h os hos
        exact Bool.not_eq_true _ ▸ eq_false_of_ne_true this
      · intro _
        exact ⟨"Could not find skills measured section",
          by simp [fetch_exam_objectives, h]⟩
    | some v =>
      constructor
      · rintro ⟨e, he⟩
        simp [fetch_exam_objectives, h] at he
      · intro hall
        have hv := List.find?_some h
        have hmem := List.mem_of_find?_eq_some h
        rw [hall v hmem] at hv
        exact absurd hv (by decide)
  · intro url page now hfind
    simp [update_objectives_file, fetch_exam_objectives, hfind]

/-- Witness for C7 at a concrete environment and page. -/
theorem objectives_failfast_witness :
    update_objectives_file none (fun _ => .ok ⟨[], []⟩) "January 1, 2026" =
      .error "EXAM_URL environment variable not set" ∧
    update_objectives_file (some "https://example.test")
        (fun _ => .ok ⟨[some "Overview"], []⟩) "January 1, 2026" =
      .error "Could not find skills measured section" :=
  ⟨objectives_failfast.2.1 _ _,
   objectives_failfast.2.2 "https://example.test" ⟨[some "Overview"], []⟩
     "January 1, 2026" (by decide)⟩

/-! ## C8 -/

/-- The image loop counts exactly the attempted-and-successfully-fetched
`src` attributes, independently of the starting count. -/
theorem processLoop_count (pn pu : String)
    (fi : String → Except String HttpResponse)
    (uj : String → String → String) :
    ∀ (srcs : List String) (count : Nat),
      processLoop pn pu fi uj srcs count =
        count + srcs.countP fun src =>
          srcAttempted uj pu src && fetchOk fi (absolutize uj pu src) := by
  intro srcs
  induction srcs with
  | nil => intro count; simp [processLoop]
  | cons src rest ih =>
    intro count
    by_cases h0 : src = ""
    · subst h0
      have hA : srcAttempted uj pu "" = false := rfl
      have hstep : processLoop pn pu fi uj ("" :: rest) count =
          processLoop pn pu fi uj rest count := by
        simp [processLoop]
      rw [hstep, ih, List.countP_cons, hA]
      simp
    · cases hk : arch_keywords.any
          (fun k => strContains (pyLower (absolutize uj pu src)) k) with
      | false =>
        have hA : srcAttempted uj pu src = false := by
          simp [srcAttempted, h0, hk]
        have hstep : processLoop pn pu fi uj (src :: rest) count =
            processLoop pn pu fi uj rest count := by
          simp [processLoop, h0, hk]
        rw [hstep, ih, List.countP_cons, hA]
        simp
      | true =>
        have hA : srcAttempted uj pu src = true := by
          simp [srcAttempted, h0, hk]
        cases hf : fi (absolutize uj pu src) with
        | ok r =>
          have hO : fetchOk fi (absolutize uj pu src) = true := by
            simp [fetchOk, hf]
          have hstep : processLoop pn pu fi uj (src :: rest) count =
              processLoop pn pu fi uj rest (count + 1) := by
            simp [processLoop, h0, hk, download_image_dd, hf]
          rw [hstep, ih, List.countP_cons, hA, hO]
          simp only [Bool.and_self, if_true, reduceIte]
          omega
        | error e =>
          have hO : fetchOk fi (absolutize uj pu src) = false := by
            simp [fetchOk, hf]
          have hstep : processLoop pn pu fi uj (src :: rest) count =
              processLoop pn pu fi uj rest count := by
            simp [processLoop, h0, hk, download_image_dd, hf]
          rw [hstep, ih, List.countP_cons, hA, hO]
          simp

/-- Folding addition over a list sums the mapped values. -/
theorem foldl_add_eq_sum (f : α → Nat) (l : List α) :
    ∀ a : Nat, l.foldl (fun t u => t + f u) a = a + (l.map f).sum := by
  induction l with
  | nil => intro a; simp
  | cons x xs ih => intro a; simp [List.foldl_cons, ih, Nat.add_assoc]

/-- C8: a failed download (e.g. an HTTP 404 surfaced by `raise_for_status`)
is caught inside `download_image` in both fetchers, which return `False`
and perform no file write instead of propagating, so the loops continue;
`image_count` counts exactly the attempted `src`s whose fetch succeeded,
the run total is the sum of the per-page counts, and the fixed-list fetcher
attempts every item regardless of failures. -/
theorem download_failures_excluded :
    (∀ e url fn, download_image_dd (.error e) url fn = (false, [])) ∧
    (∀ e fn, download_image_sad (.error e) fn = (false, [])) ∧
    (∀ (pu : String) (fi : String → Except String HttpResponse)
        (uj : String → String → String) (srcs : List String),
      process_page pu (.ok srcs) fi uj =
        srcs.countP fun src =>
          srcAttempted uj pu src && fetchOk fi (absolutize uj pu src)) ∧
    (∀ (pu e : String) (fi : String → Except String HttpResponse)
        (uj : String → String → String),
      process_page pu (.error e) fi uj = 0) ∧
    (∀ (pOracle : String → Except String (List String))
        (fi : String → Except String HttpResponse)
        (uj : String → String → String),
      scrape_main pOracle fi uj =
        (pages.map fun u => process_page u (pOracle u) fi uj).sum) ∧
    (∀ fi, (download_architecture_diagrams fi).length =
      ARCHITECTURE_IMAGES.length) := by
  refine ⟨fun e url fn => rfl, fun e fn => rfl, ?_, fun pu e fi uj => rfl, ?_, ?_⟩
  · intro pu fi uj srcs
    have h := processLoop_count (clean_filename pu) pu fi uj srcs 0
    simpa [process_page] using h
  · intro pOracle fi uj
    have h := foldl_add_eq_sum (fun u => process_page u (pOracle u) fi uj) pages 0
    simpa [scrape_main] using h
  · intro fi
    exact List.length_map _ _

/-! ## C9 -/

/-- Each slide-creation step adds one to `slide_counter` and appends exactly
one slide stamped with the incremented counter; over a whole run from the
initial state, the stamped footer numbers are consecutive from
`slide_counter + 1`. -/
theorem foldl_applyStep_spec (steps : List Step) :
    ∀ st : BuildState,
      (steps.foldl applyStep st).slide_counter = st.slide_counter + steps.length ∧
      (steps.foldl applyStep st).slides.map Slide.footer_num =
        st.slides.map Slide.footer_num ++
          List.range' (st.slide_counter + 1) steps.length := by
  induction steps with
  | nil => intro st; simp
  | cons s rest ih =>
    intro st
    obtain ⟨h1, h2⟩ := ih (applyStep st s)
    have hc : (applyStep st s).slide_counter = st.slide_counter + 1 := by
      cases s <;> rfl
    have hm : (applyStep st s).slides.map Slide.footer_num =
        st.slides.map Slide.footer_num ++ [st.slide_counter + 1] := by
      cases s <;>
        simp [applyStep, new_content_slide, new_divider_slide, new_exam_tip_slide]
    refine ⟨?_, ?_⟩
    · rw [List.foldl_cons, h1, hc, List.length_cons]; omega
    · rw [List.foldl_cons, h2, hm, hc, List.length_cons, List.append_assoc,
        List.range'_succ]
      rfl

/-- C9: every slide-creation step increments the global counter by one and
appends exactly one slide whose stamped footer number is the new counter
value; hence at every point of the build the counter equals the number of
slides created so far, the n-th slide of the finished deck is stamped n
(the stamped numbers are 1..97 in order), and the stamped numbers are
strictly increasing in slide order. -/
theorem slide_counter_invariant :
    (∀ (st : BuildState) (step : Step),
      (applyStep st step).slide_counter = st.slide_counter + 1 ∧
      ∃ sl, (applyStep st step).slides = st.slides ++ [sl] ∧
        sl.footer_num = st.slide_counter + 1) ∧
    (∀ k, (runSteps (buildSteps.take k)).slide_counter =
      (runSteps (buildSteps.take k)).slides.length) ∧
    runBuild.slides.map Slide.footer_num = List.range' 1 97 ∧
    List.Pairwise (fun a b => a.footer_num < b.footer_num) runBuild.slides := by
  have hmap : ∀ steps : List Step,
      (runSteps steps).slides.map Slide.footer_num =
        List.range' 1 steps.length := by
    intro steps
    have h := (foldl_applyStep_spec steps ⟨0, []⟩).2
    simpa [runSteps] using h
  refine ⟨?_, ?_, ?_, ?_⟩
  · intro st step
    refine ⟨by cases step <;> rfl, ?_⟩
    cases step <;>
      exact ⟨_, rfl, rfl⟩
  · intro k
    have h1 := (foldl_applyStep_spec (buildSteps.take k) ⟨0, []⟩).1
    have h2 := hmap (buildSteps.take k)
    have hlen : (runSteps (buildSteps.take k)).slides.length =
        (buildSteps.take k).length := by
      have := congrArg List.length h2
      simpa using this
    simp only [runSteps] at h1 hlen
    simp [runSteps, h1, hlen]
  · have h := hmap buildSteps
    have hl : buildSteps.length = 97 := by decide
    rwa [hl] at h
  · have h := hmap buildSteps
    have hl : buildSteps.length = 97 := by decide
    rw [hl] at h
    have h' : runBuild.slides.map Slide.footer_num = List.range' 1 97 := h
    have hp : List.Pairwise (· < ·)
        (runBuild.slides.map Slide.footer_num) := by
      rw [h']
      decide
    exact List.pairwise_map.mp hp

/-! ## C5 -/

/-- C5 (evidence of a defect in the source): on the single-section input
whose title is "Identity (25–30%)" (en dash) with items ["a", "b"], the
markdown produced by `generate_markdown` does NOT contain the literal
"25–30%" (the weight regex in the stored source has the three-character
mojibake sequence U+00E2 U+20AC U+201C where the en dash belongs, so the
search fails and the weight renders empty) and does NOT contain the emoji
U+1F510 (the stored `emoji_map` value for "Identity" is the mojibake
"ðŸ”"); the detail heading actually emitted is "### 1. ðŸ” Identity ()",
followed by exactly the two bullet lines "- a" and "- b". -/
theorem generate_markdown_mojibake :
    (strContains
      (generate_markdown
        ⟨"October 12, 2025", [⟨"Identity (25–30%)", ["a", "b"]⟩]⟩)
      "25–30%" = false) ∧
    (strContains
      (generate_markdown
        ⟨"October 12, 2025", [⟨"Identity (25–30%)", ["a", "b"]⟩]⟩)
      (String.mk [Char.ofNat 128272]) = false) ∧
    (strContains
      (generate_markdown
        ⟨"October 12, 2025", [⟨"Identity (25–30%)", ["a", "b"]⟩]⟩)
      "### 1. ðŸ” Identity ()\n\n- a\n- b\n" = true) := by
  refine ⟨by decide, by decide, by decide⟩
